import Mathlib

/-!
time_stamp_counters: the calibration and conversion pipeline of `tsc.c`

A shallow embedding of `src/tsc.c` / `src/tsc.h`.

Machine integers are natural numbers: a `uint32_t` is a `Nat` reduced modulo
`2^32` where the C operation can wrap, a `uint64_t` modulo `2^64`.  C `int`
results (`read_msr`, file descriptors) are `Int`.  An operation whose C
behaviour is undefined (division by zero, an index outside a table) yields
`none`.
-/

namespace Tsc

/-! ## `tsc.h` -/

/-- Anonymous enumeration of `tsc.h` (the variable `processor_enum`). -/
abbrev TOO_OLD : Nat := 0
/-- Second enumerator. -/
abbrev NEHALEM : Nat := 1
/-- Third enumerator. -/
abbrev WESTMERE : Nat := 2
/-- Fourth enumerator. -/
abbrev SANDYBRIDGE : Nat := 3
/-- Fifth enumerator. -/
abbrev IVYBRIDGE : Nat := 4
/-- Sixth enumerator. -/
abbrev HASWELL : Nat := 5
/-- Seventh enumerator. -/
abbrev BROADWELL : Nat := 6
/-- Eighth enumerator. -/
abbrev SKYLAKE : Nat := 7
/-- Ninth enumerator. -/
abbrev PHI : Nat := 8

/-- The nine enumerators in declaration order. -/
def processor_enum : List Nat :=
  [TOO_OLD, NEHALEM, WESTMERE, SANDYBRIDGE, IVYBRIDGE, HASWELL, BROADWELL, SKYLAKE, PHI]

/-- Record `struct processor_type_s`. -/
structure processor_type_s where
  name : String
  base_clock_khz : Nat
  deriving DecidableEq, Repr

/-! ## `tsc.c` -/

/-- Table `tsc_processor_types[]`, `tsc.c` lines 13-23. -/
def tsc_processor_types : List processor_type_s :=
  [ ⟨"Too Old/Unknown", 100000⟩,
    ⟨"Nehalem", 133330⟩,
    ⟨"Westmere", 133330⟩,
    ⟨"Sandybridge", 100000⟩,
    ⟨"Ivybridge", 100000⟩,
    ⟨"Haswell", 100000⟩,
    ⟨"Broadwell", 100000⟩,
    ⟨"Skylake", 100000⟩,
    ⟨"Xeon Phi", 100000⟩ ]

/-- Body of `get_intel_family_model` after the `cpuid` instruction: decodes the
value `model_register` left in `%eax` by `cpuid` with `eax = 1`. -/
def get_intel_family_model (model_register : Nat) : Nat :=
  let model := ((model_register &&& 0xff) >>> 4) ||| ((model_register &&& 0xf0000) >>> 12)
  let family := ((model_register &&& 0xf00) >>> 8) ||| ((model_register &&& 0xff00000) >>> 16)
  ((family <<< 16) % 2 ^ 32) ||| model

/-- The `switch` of `get_processor_type`, `tsc.c` lines 69-109. -/
def get_processor_type (family_model : Nat) : Nat :=
  match family_model with
  | 0x6001a | 0x6001e | 0x6001f | 0x6002e => NEHALEM
  | 0x60025 | 0x6002c | 0x6002f => WESTMERE
  | 0x6002a | 0x6002d => SANDYBRIDGE
  | 0x6003a | 0x6003e => IVYBRIDGE
  | 0x6003c | 0x6003f | 0x60045 | 0x60046 => HASWELL
  | 0x6003d | 0x60047 | 0x6004f | 0x60056 => BROADWELL
  | 0x6004e | 0x6005e => SKYLAKE
  | 0x60057 => PHI
  | _ => TOO_OLD

/-- The `case` labels of the `switch` in `get_processor_type`, in source order. -/
def case_labels : List Nat :=
  [ 0x6001a, 0x6001e, 0x6001f, 0x6002e,
    0x60025, 0x6002c, 0x6002f,
    0x6002a, 0x6002d,
    0x6003a, 0x6003e,
    0x6003c, 0x6003f, 0x60045, 0x60046,
    0x6003d, 0x60047, 0x6004f, 0x60056,
    0x6004e, 0x6005e,
    0x60057 ]

/-- Function `get_cycles_to_nsec_scale`, `tsc.c` lines 165-168:
`(uint32_t)((1000000)<<10) / (uint32_t)tsc_frequency_khz`.  The shift is done
in `int`, the division in `uint32_t`; dividing by zero is undefined. -/
def get_cycles_to_nsec_scale (tsc_frequency_khz : Nat) : Option Nat :=
  if tsc_frequency_khz % 2 ^ 32 = 0 then none
  else some (((1000000 <<< 10) % 2 ^ 32) / (tsc_frequency_khz % 2 ^ 32))

/-- Function `cycles_to_nsec`, `tsc.c` lines 170-173: the product is formed in
`uint64_t` (so it wraps modulo `2^64`) and shifted right by ten. -/
def cycles_to_nsec (cycles scale_factor : Nat) : Nat :=
  ((cycles * scale_factor) % 2 ^ 64) >>> 10

/-! ## The register device and the calls the program makes -/

/-- One externally visible action of the program: a system call on the register
device, or a line written to `stderr`. -/
inductive Event where
  | sys_open (cpu : Int)
  | sys_lseek (fd : Int) (offset : Nat)
  | sys_read (fd : Int) (count : Nat)
  | sys_close (fd : Int)
  | fprintf_stderr (msg : String)
  deriving DecidableEq, Repr

/-- Whether an event is a system call on the register device. -/
def is_device_call : Event → Bool
  | .sys_open _ => true
  | .sys_lseek _ _ => true
  | .sys_read _ _ => true
  | .sys_close _ => true
  | .fprintf_stderr _ => false

/-- The per-CPU pseudo-device `/dev/cpu/<cpu>/msr` as the system calls of
`read_msr` observe it. -/
structure MsrDevice where
  /-- Result of `open("/dev/cpu/<cpu>/msr", O_RDONLY)`: a descriptor, negative on failure. -/
  open_result : Int → Int
  /-- Result of `lseek(fd, idx, SEEK_CUR)` on the fresh descriptor: the new offset, `-1` on failure. -/
  lseek_result : Int → Nat → Int
  /-- Bytes the device can deliver to a `read` on `fd` at the given offset; `none` is a read error. -/
  read_result : Int → Int → Option (List Nat)

/-- Little-endian value of a byte string. -/
def le_value : List Nat → Nat
  | [] => 0
  | b :: bs => b % 256 + 256 * le_value bs

/-- The `uint64_t` object `old` after `read` has stored `bytes` (at most eight)
at its address; the bytes beyond those stored keep their old content. -/
def store_bytes (old : Nat) (bytes : List Nat) : Nat :=
  le_value bytes + (old % 2 ^ 64) / 256 ^ bytes.length * 256 ^ bytes.length

/-- Outcome of `read_msr`: the returned `int`, the content of `*val`
afterwards, and the calls made. -/
structure MsrOutcome where
  ret : Int
  val : Nat
  trace : List Event
  deriving DecidableEq, Repr

/-- Function `read_msr`, `tsc.c` lines 114-129.  `val` is the content of `*val`
on entry. -/
def read_msr (dev : MsrDevice) (cpu : Int) (idx : Nat) (val : Nat) : MsrOutcome :=
  let fd := dev.open_result cpu
  if fd < 0 then ⟨-1, val, [.sys_open cpu]⟩
  else
    let pos := dev.lseek_result fd idx
    if pos = -1 then ⟨-1, val, [.sys_open cpu, .sys_lseek fd idx, .sys_close fd]⟩
    else
      match dev.read_result fd pos with
      | none =>
        ⟨-1, val, [.sys_open cpu, .sys_lseek fd idx, .sys_read fd 8, .sys_close fd]⟩
      | some available =>
        let bytes := available.take 8
        if (bytes.length : Int) ≠ 8 then
          ⟨-1, store_bytes val bytes,
            [.sys_open cpu, .sys_lseek fd idx, .sys_read fd 8, .sys_close fd]⟩
        else
          ⟨0, store_bytes val bytes,
            [.sys_open cpu, .sys_lseek fd idx, .sys_read fd 8, .sys_close fd]⟩

/-- Conversion of an `int` to `uint32_t`. -/
def to_uint32 (i : Int) : Nat := (i % 2 ^ 32).toNat

/-- Outcome of `get_tsc_freq_khz`: the returned `uint32_t` (`none` if the table
is indexed out of range) and the calls made. -/
structure FreqOutcome where
  ret : Option Nat
  trace : List Event
  deriving DecidableEq, Repr

/-- Function `get_tsc_freq_khz`, `tsc.c` lines 138-160, with `TSC_VERBOSE`
undefined as in `tsc.h`.  `model_register` is what `cpuid` leaves in `%eax`,
`platform_info` the indeterminate initial content of the local of that name. -/
def get_tsc_freq_khz (model_register : Nat) (dev : MsrDevice) (platform_info : Nat)
    (cpu : Int) : FreqOutcome :=
  let processor_type := get_processor_type (get_intel_family_model model_register)
  if processor_type = TOO_OLD then
    ⟨some (to_uint32 (-1)), [.fprintf_stderr "processor too new, too old, or not detected\n"]⟩
  else
    let r := read_msr dev cpu 0xce platform_info
    if r.ret = -1 then
      ⟨some (to_uint32 (-1)), r.trace ++ [.fprintf_stderr "error reading MSR_PLATFORM_INFO\n"]⟩
    else
      let non_turbo_ratio := (r.val &&& 0xff00) >>> 8
      match tsc_processor_types[processor_type]? with
      | none => ⟨none, r.trace⟩
      | some entry => ⟨some ((non_turbo_ratio * entry.base_clock_khz % 2 ^ 64) % 2 ^ 32), r.trace⟩

/-- A register device on which every call succeeds and every register reads as
the eight little-endian bytes of `v`. -/
def constant_device (v : Nat) : MsrDevice where
  open_result := fun _ => 3
  lseek_result := fun _ idx => idx
  read_result := fun _ _ => some ((List.range 8).map (fun i => (v >>> (8 * i)) % 256))

/-- A register device that cannot be opened. -/
def closed_device : MsrDevice where
  open_result := fun _ => -1
  lseek_result := fun _ _ => -1
  read_result := fun _ _ => none

/-! ## Timestamp reader and decoding helpers -/

/-- Conversion of an `int` to `uint64_t`. -/
def to_uint64 (i : Int) : Nat := (i % 2 ^ 64).toNat

/-- Macro `PARANOID_TSC` of `tsc.h`, defined there. -/
def PARANOID_TSC : Bool := true

/-- Function `rdtscp`, `tsc.c` lines 35-48, after the `rdtscp` instruction has
left `lo` in `%eax`, `hi` in `%edx` and `cpuid` in `%ecx`.  `paranoid` says
whether `PARANOID_TSC` is defined; the local `socket`, assigned and never
read, is `_socket`. -/
def rdtscp (paranoid : Bool) (lo hi cpuid expected_cpu : Nat) : Nat :=
  if paranoid then
    let _socket := (cpuid &&& 0xfff000) >>> 12
    let core := cpuid &&& 0xfff
    if core ≠ expected_cpu then to_uint64 (-1)
    else (((hi % 2 ^ 64) <<< 32) % 2 ^ 64) ||| lo
  else (((hi % 2 ^ 64) <<< 32) % 2 ^ 64) ||| lo

/-- The local `model` of `get_intel_family_model`, `tsc.c` line 63. -/
def decoded_model (model_register : Nat) : Nat :=
  ((model_register &&& 0xff) >>> 4) ||| ((model_register &&& 0xf0000) >>> 12)

/-- The local `family` of `get_intel_family_model`, `tsc.c` line 64. -/
def decoded_family (model_register : Nat) : Nat :=
  ((model_register &&& 0xf00) >>> 8) ||| ((model_register &&& 0xff00000) >>> 16)

/-- The identifiers of the enumerators of `tsc.h`, in declaration order. -/
def enumerator_names : List String :=
  ["TOO_OLD", "NEHALEM", "WESTMERE", "SANDYBRIDGE", "IVYBRIDGE", "HASWELL", "BROADWELL",
    "SKYLAKE", "PHI"]

/-- The letters of a string, in upper case. -/
def upper_letters (s : String) : List Char :=
  (s.toList.filter Char.isAlpha).map Char.toUpper

/-- Whether the second list occurs as a contiguous block of the first. -/
def has_infix : List Char → List Char → Bool
  | [], p => p.isEmpty
  | c :: cs, p => p.isPrefixOf (c :: cs) || has_infix cs p

/-- Whether a table name is the name of an enumerator: the letters of the
identifier occur, case aside, as a block in the letters of the name. -/
def names_agree (enumerator name : String) : Bool :=
  has_infix (upper_letters name) (upper_letters enumerator)

/-- The `case` labels that return `NEHALEM` or `WESTMERE`, `tsc.c` lines 73-82. -/
def nehalem_westmere_keys : List Nat :=
  [0x6001a, 0x6001e, 0x6001f, 0x6002e, 0x60025, 0x6002c, 0x6002f]

/-- A register device that opens and seeks, and delivers the given bytes. -/
def bytes_device (bytes : List Nat) : MsrDevice where
  open_result := fun _ => 3
  lseek_result := fun _ idx => idx
  read_result := fun _ _ => some bytes

/-! ## Auxiliary facts -/

theorem get_processor_type_le (k : Nat) : get_processor_type k ≤ 8 := by
  unfold get_processor_type
  split <;> decide

theorem shiftRight_ten (x : Nat) : x >>> 10 = x / 1024 := by
  rw [Nat.shiftRight_eq_div_pow]

theorem scale_of_nonzero (f : Nat) (h0 : f ≠ 0) (h32 : f < 2 ^ 32) :
    get_cycles_to_nsec_scale f = some (1024000000 / f) := by
  have hf : f % 2 ^ 32 = f := Nat.mod_eq_of_lt h32
  have hc : (1000000 <<< 10) % 2 ^ 32 = 1024000000 := by decide
  unfold get_cycles_to_nsec_scale
  rw [hf, hc, if_neg h0]

theorem ratio_field (v : Nat) : (v &&& 0xff00) >>> 8 = (v >>> 8) &&& 0xff := by
  apply Nat.eq_of_testBit_eq
  intro j
  have h : (0xff : Nat) = 0xff00 >>> 8 := by decide
  rw [h]
  simp only [Nat.testBit_shiftRight, Nat.testBit_and]

theorem ratio_field_le (v : Nat) : (v &&& 0xff00) >>> 8 ≤ 255 := by
  rw [ratio_field]
  exact Nat.and_le_right

theorem read_msr_ret (dev : MsrDevice) (cpu : Int) (idx val : Nat) :
    (read_msr dev cpu idx val).ret = 0 ∨ (read_msr dev cpu idx val).ret = -1 := by
  unfold read_msr
  simp only
  split_ifs
  · exact Or.inr rfl
  · exact Or.inr rfl
  · split
    · exact Or.inr rfl
    · split_ifs
      · exact Or.inr rfl
      · exact Or.inl rfl

theorem read_msr_trace_head (dev : MsrDevice) (cpu : Int) (idx val : Nat) :
    (read_msr dev cpu idx val).trace.head? = some (Event.sys_open cpu) := by
  unfold read_msr
  simp only
  split_ifs
  · rfl
  · rfl
  · split
    · rfl
    · split_ifs <;> rfl

theorem freq_unsupported (raw : Nat) (dev : MsrDevice) (g : Nat) (cpu : Int)
    (h : get_processor_type (get_intel_family_model raw) = TOO_OLD) :
    get_tsc_freq_khz raw dev g cpu =
      ⟨some 0xFFFFFFFF,
        [Event.fprintf_stderr "processor too new, too old, or not detected\n"]⟩ := by
  unfold get_tsc_freq_khz
  simp only [h, if_true]
  rfl

theorem freq_unreadable (raw : Nat) (dev : MsrDevice) (g : Nat) (cpu : Int)
    (hsup : get_processor_type (get_intel_family_model raw) ≠ TOO_OLD)
    (hret : (read_msr dev cpu 0xce g).ret = -1) :
    get_tsc_freq_khz raw dev g cpu =
      ⟨some 0xFFFFFFFF, (read_msr dev cpu 0xce g).trace ++
        [Event.fprintf_stderr "error reading MSR_PLATFORM_INFO\n"]⟩ := by
  unfold get_tsc_freq_khz
  simp only [if_neg hsup, hret, if_true]
  rfl

theorem freq_resolved (raw : Nat) (dev : MsrDevice) (g : Nat) (cpu : Int)
    (hsup : get_processor_type (get_intel_family_model raw) ≠ TOO_OLD)
    (hret : (read_msr dev cpu 0xce g).ret ≠ -1) :
    ∃ entry, tsc_processor_types[get_processor_type (get_intel_family_model raw)]? = some entry ∧
      entry.base_clock_khz ≤ 133330 ∧
      get_tsc_freq_khz raw dev g cpu =
        ⟨some ((((read_msr dev cpu 0xce g).val >>> 8) &&& 0xff) * entry.base_clock_khz),
          (read_msr dev cpu 0xce g).trace⟩ := by
  unfold get_tsc_freq_khz
  simp only [if_neg hsup, if_neg hret, ratio_field]
  have hle := get_processor_type_le (get_intel_family_model raw)
  have hr : ((read_msr dev cpu 0xce g).val >>> 8) &&& 0xff ≤ 255 := Nat.and_le_right
  generalize ((read_msr dev cpu 0xce g).val >>> 8) &&& 0xff = ratio at hr ⊢
  generalize get_processor_type (get_intel_family_model raw) = t at hsup hle ⊢
  have ht : t ≠ 0 := hsup
  interval_cases t
  · exact absurd rfl ht
  all_goals
    simp only [tsc_processor_types, List.getElem?_cons_succ, List.getElem?_cons_zero]
    refine ⟨_, rfl, by decide, ?_⟩
    congr 2
    dsimp only
    omega

theorem lit_testBit_high (m i : Nat) (hm : m < 2 ^ 32) (hi : 32 ≤ i) : m.testBit i = false :=
  Nat.testBit_lt_two_pow (lt_of_lt_of_le hm (Nat.pow_le_pow_right (by decide) hi))

theorem lit_testBit (i : Nat) (h : i < 64) :
    Nat.testBit 0xff i = decide (i < 8) ∧
    Nat.testBit 0xf0000 i = decide (16 ≤ i ∧ i < 20) ∧
    Nat.testBit 0xf00 i = decide (8 ≤ i ∧ i < 12) ∧
    Nat.testBit 0xff00000 i = decide (20 ≤ i ∧ i < 28) ∧
    Nat.testBit 0x0FFF0FF0 i = decide ((4 ≤ i ∧ i < 12) ∨ (16 ≤ i ∧ i < 28)) := by
  revert i
  decide

theorem key_testBit (raw i : Nat) :
    (get_intel_family_model raw).testBit i =
      if i < 4 then raw.testBit (i + 4)
      else if i < 8 then raw.testBit (i + 12)
      else if i < 16 then false
      else if i < 20 then raw.testBit (i - 8)
      else if i < 28 then raw.testBit i
      else false := by
  unfold get_intel_family_model
  simp only [Nat.testBit_or, Nat.testBit_and, Nat.testBit_shiftRight,
      Nat.testBit_shiftLeft, Nat.testBit_mod_two_pow]
  rcases Nat.lt_or_ge i 32 with h | h
  · interval_cases i <;>
      simp [(lit_testBit _ _).1, (lit_testBit _ _).2.1, (lit_testBit _ _).2.2.1,
        (lit_testBit _ _).2.2.2.1]
  · have h1 : ¬ i < 4 := by omega
    have h2 : ¬ i < 8 := by omega
    have h3 : ¬ i < 16 := by omega
    have h4 : ¬ i < 20 := by omega
    have h5 : ¬ i < 28 := by omega
    have h6 : ¬ i < 32 := by omega
    simp [h1, h2, h3, h4, h5, h6,
      lit_testBit_high _ (4 + i) (by decide : 0xff < 2 ^ 32) (by omega),
      lit_testBit_high _ (12 + i) (by decide : 0xf0000 < 2 ^ 32) (by omega)]

theorem key_eq_iff_bits (r1 r2 : Nat) :
    get_intel_family_model r1 = get_intel_family_model r2 ↔
      ∀ i, (4 ≤ i ∧ i ≤ 11) ∨ (16 ≤ i ∧ i ≤ 27) → r1.testBit i = r2.testBit i := by
  constructor
  · intro hkey i hi
    have hbit : ∀ j, (get_intel_family_model r1).testBit j
        = (get_intel_family_model r2).testBit j := fun j => by rw [hkey]
    rcases hi with ⟨h4, h11⟩ | ⟨h16, h27⟩
    · rcases Nat.lt_or_ge i 8 with h | h
      · have hb := hbit (i - 4)
        have c1 : i - 4 < 4 := by omega
        have e : i - 4 + 4 = i := by omega
        simp only [key_testBit, c1, if_true, e] at hb
        exact hb
      · have hb := hbit (i + 8)
        have c1 : ¬ i + 8 < 4 := by omega
        have c2 : ¬ i + 8 < 8 := by omega
        have c3 : ¬ i + 8 < 16 := by omega
        have c4 : i + 8 < 20 := by omega
        have e : i + 8 - 8 = i := by omega
        simp only [key_testBit, c1, c2, c3, c4, if_true, if_false, e] at hb
        exact hb
    · rcases Nat.lt_or_ge i 20 with h | h
      · have hb := hbit (i - 12)
        have c1 : ¬ i - 12 < 4 := by omega
        have c2 : i - 12 < 8 := by omega
        have e : i - 12 + 12 = i := by omega
        simp only [key_testBit, c1, c2, if_true, if_false, e] at hb
        exact hb
      · have hb := hbit i
        have c1 : ¬ i < 4 := by omega
        have c2 : ¬ i < 8 := by omega
        have c3 : ¬ i < 16 := by omega
        have c4 : ¬ i < 20 := by omega
        have c5 : i < 28 := by omega
        simp only [key_testBit, c1, c2, c3, c4, c5, if_true, if_false] at hb
        exact hb
  · intro hbits
    apply Nat.eq_of_testBit_eq
    intro i
    rw [key_testBit, key_testBit]
    split_ifs
    · exact hbits _ (by omega)
    · exact hbits _ (by omega)
    · rfl
    · exact hbits _ (by omega)
    · exact hbits _ (by omega)
    · rfl

theorem mask_eq_iff_bits (r1 r2 : Nat) :
    r1 &&& 0x0FFF0FF0 = r2 &&& 0x0FFF0FF0 ↔
      ∀ i, (4 ≤ i ∧ i ≤ 11) ∨ (16 ≤ i ∧ i ≤ 27) → r1.testBit i = r2.testBit i := by
  constructor
  · intro hmask i hi
    have hbit : (r1 &&& 0x0FFF0FF0).testBit i = (r2 &&& 0x0FFF0FF0).testBit i := by rw [hmask]
    have hm : Nat.testBit 0x0FFF0FF0 i = true := by
      rw [(lit_testBit i (by omega)).2.2.2.2]
      exact decide_eq_true (by omega)
    simpa only [Nat.testBit_and, hm, Bool.and_true] using hbit
  · intro hbits
    apply Nat.eq_of_testBit_eq
    intro i
    simp only [Nat.testBit_and]
    by_cases hi : (4 ≤ i ∧ i ≤ 11) ∨ (16 ≤ i ∧ i ≤ 27)
    · rw [hbits i hi]
    · have hm : Nat.testBit 0x0FFF0FF0 i = false := by
        rcases Nat.lt_or_ge i 32 with h | h
        · rw [(lit_testBit i (by omega)).2.2.2.2]
          exact decide_eq_false (by omega)
        · exact lit_testBit_high _ i (by decide) h
      rw [hm, Bool.and_false, Bool.and_false]

theorem decoded_model_le (raw : Nat) : decoded_model raw ≤ 0xFF := by
  have h1 : raw &&& 0xff ≤ 0xff := Nat.and_le_right
  have h2 : raw &&& 0xf0000 ≤ 0xf0000 := Nat.and_le_right
  have h : decoded_model raw < 2 ^ 8 := by
    unfold decoded_model
    apply Nat.or_lt_two_pow
    · rw [Nat.shiftRight_eq_div_pow]; omega
    · rw [Nat.shiftRight_eq_div_pow]; omega
  omega

theorem decoded_family_le (raw : Nat) : decoded_family raw ≤ 0xFFF := by
  have h1 : raw &&& 0xf00 ≤ 0xf00 := Nat.and_le_right
  have h2 : raw &&& 0xff00000 ≤ 0xff00000 := Nat.and_le_right
  have h : decoded_family raw < 2 ^ 12 := by
    unfold decoded_family
    apply Nat.or_lt_two_pow
    · rw [Nat.shiftRight_eq_div_pow]; omega
    · rw [Nat.shiftRight_eq_div_pow]; omega
  omega

theorem key_eq_sum (raw : Nat) :
    get_intel_family_model raw = (decoded_family raw <<< 16) ||| decoded_model raw ∧
    get_intel_family_model raw = 2 ^ 16 * decoded_family raw + decoded_model raw := by
  have hf := decoded_family_le raw
  have hm := decoded_model_le raw
  have hshift : decoded_family raw <<< 16 = 2 ^ 16 * decoded_family raw := by
    rw [Nat.shiftLeft_eq, Nat.mul_comm]
  have hkey : get_intel_family_model raw
      = (decoded_family raw <<< 16) ||| decoded_model raw := by
    show ((decoded_family raw <<< 16) % 2 ^ 32) ||| decoded_model raw = _
    rw [Nat.mod_eq_of_lt (by rw [hshift]; omega)]
  refine ⟨hkey, ?_⟩
  rw [hkey, hshift]
  exact (Nat.mul_add_lt_is_or (by omega) _).symm

theorem store_eight_bytes (old : Nat) (bytes : List Nat) (h : bytes.length = 8) :
    store_bytes old bytes = le_value bytes := by
  unfold store_bytes
  rw [h]
  have hlt : old % 2 ^ 64 < 256 ^ 8 := by
    have : old % 2 ^ 64 < 2 ^ 64 := Nat.mod_lt _ (by decide)
    calc old % 2 ^ 64 < 2 ^ 64 := this
      _ = 256 ^ 8 := by norm_num
  rw [Nat.div_eq_of_lt hlt]
  simp

theorem le_value_lt (bytes : List Nat) : le_value bytes < 256 ^ bytes.length := by
  induction bytes with
  | nil => simp [le_value]
  | cons b bs ih =>
    have hb : b % 256 < 256 := Nat.mod_lt _ (by decide)
    simp only [le_value, List.length_cons, pow_succ]
    omega

theorem table_index_lt (j : Nat) (entry : processor_type_s)
    (h : tsc_processor_types[j]? = some entry) : j < 9 := by
  by_contra hge
  have hnone : tsc_processor_types[j]? = none :=
    List.getElem?_eq_none (by show 9 ≤ j; omega)
  rw [hnone] at h
  exact Option.noConfusion h

theorem lockstep_names :
    ∀ i < 9, ∀ j < 9,
      (names_agree (enumerator_names.getD i "") (tsc_processor_types.getD j ⟨"", 0⟩).name = true
        ↔ i = j) := by
  decide

theorem names_agree_unique (i j : Nat) (hi : i < 9) (other : processor_type_s)
    (hj : tsc_processor_types[j]? = some other)
    (h : names_agree (enumerator_names.getD i "") other.name = true) : j = i := by
  have hj9 := table_index_lt j other hj
  have hother : tsc_processor_types.getD j ⟨"", 0⟩ = other := by
    rw [List.getD_eq_getElem?_getD, hj]
    rfl
  rw [← hother] at h
  exact ((lockstep_names i hi j hj9).mp h).symm

theorem table_base_clock_pos (j : Nat) (entry : processor_type_s)
    (h : tsc_processor_types[j]? = some entry) : 100000 ≤ entry.base_clock_khz := by
  have hj9 := table_index_lt j entry h
  interval_cases j <;>
    · simp only [tsc_processor_types, List.getElem?_cons_succ, List.getElem?_cons_zero,
        Option.some.injEq] at h
      subst h
      decide

theorem key_family (raw : Nat) : get_intel_family_model raw >>> 16 = decoded_family raw := by
  have hm := decoded_model_le raw
  rw [Nat.shiftRight_eq_div_pow, (key_eq_sum raw).2]
  omega

theorem le_value_byte (bytes : List Nat) :
    ∀ i b, bytes[i]? = some b → le_value bytes / 256 ^ i % 256 = b % 256 := by
  induction bytes with
  | nil => intro i b h; simp at h
  | cons a as ih =>
    intro i b h
    cases i with
    | zero =>
      simp only [List.getElem?_cons_zero, Option.some.injEq] at h
      subst h
      simp only [le_value, pow_zero, Nat.div_one]
      omega
    | succ j =>
      simp only [List.getElem?_cons_succ] at h
      have hstep : le_value (a :: as) / 256 ^ (j + 1) = le_value as / 256 ^ j := by
        have ha : a % 256 < 256 := Nat.mod_lt _ (by decide)
        have h1 : le_value (a :: as) / 256 = le_value as := by
          simp only [le_value]
          omega
        rw [pow_succ, Nat.mul_comm, ← Nat.div_div_eq_div_mul, h1]
      rw [hstep]
      exact ih j b h

/-! ## Classifier -/

/-- C1: for every key `k`, `get_processor_type k` is one of the nine
enumerators `TOO_OLD..PHI`, hence at most 8 and a valid index of the nine-entry
table `tsc_processor_types`; and it is `TOO_OLD` for every `k` that is not one
of the 22 `case` labels. -/
theorem get_processor_type_range (k : Nat) :
    get_processor_type k ∈ processor_enum ∧
    get_processor_type k ≤ 8 ∧
    tsc_processor_types.length = 9 ∧
    get_processor_type k < tsc_processor_types.length ∧
    case_labels.length = 22 ∧
    (k ∉ case_labels → get_processor_type k = TOO_OLD) := by
  refine ⟨?_, get_processor_type_le k, rfl, ?_, rfl, ?_⟩
  · unfold get_processor_type
    split <;> decide
  · have := get_processor_type_le k
    show get_processor_type k < 9
    omega
  · intro h
    simp only [case_labels, List.mem_cons, List.mem_singleton, List.not_mem_nil, not_or] at h
    unfold get_processor_type
    split <;> simp_all

/-- C1, instance: the key `0x60099` is no `case` label and classifies as `TOO_OLD`. -/
theorem get_processor_type_range_witness : get_processor_type 0x60099 = TOO_OLD :=
  (get_processor_type_range 0x60099).2.2.2.2.2 (by decide)

/-! ## Scale factor and conversion -/

/-- C2: for every nonzero 32-bit frequency `f`, `get_cycles_to_nsec_scale f`
is `1024000000 / f` with truncating division; the constant `1000000 << 10` is
`1024000000` and fits in 31 bits; and the scale of `2600000` is `393`. -/
theorem get_cycles_to_nsec_scale_spec (f : Nat) (h0 : f ≠ 0) (h32 : f < 2 ^ 32) :
    (∃ s, get_cycles_to_nsec_scale f = some s ∧ s = 1024000000 / f ∧
      s * f ≤ 1024000000 ∧ 1024000000 < (s + 1) * f) ∧
    (1000000 <<< 10 = 1024000000 ∧ 1000000 <<< 10 < 2 ^ 31) ∧
    get_cycles_to_nsec_scale 2600000 = some 393 := by
  refine ⟨⟨_, scale_of_nonzero f h0 h32, rfl, Nat.div_mul_le_self _ _, ?_⟩, by decide, by decide⟩
  rw [Nat.mul_comm]
  exact Nat.lt_mul_div_succ _ (Nat.pos_of_ne_zero h0)

/-- C2, instance: at 2.6 GHz. -/
theorem get_cycles_to_nsec_scale_spec_witness :
    get_cycles_to_nsec_scale 2600000 = some 393 :=
  (get_cycles_to_nsec_scale_spec 2600000 (by decide) (by decide)).2.2

/-- C3: for a cycle count below `2^54` and a scale factor of at most 1024 the
64-bit product does not wrap, so `cycles_to_nsec c s` is `c * s / 1024` over
the natural numbers; and every 32-bit frequency of at least 1,000,000 kHz has a
scale factor of at most 1024. -/
theorem cycles_to_nsec_no_wrap (c s : Nat) (hc : c < 2 ^ 54) (hs : s ≤ 1024) :
    c * s < 2 ^ 64 ∧ cycles_to_nsec c s = c * s / 1024 ∧
    (∀ f, 1000000 ≤ f → f < 2 ^ 32 →
      ∃ s1, get_cycles_to_nsec_scale f = some s1 ∧ s1 ≤ 1024) := by
  have hprod : c * s < 2 ^ 64 := by
    calc c * s ≤ c * 1024 := Nat.mul_le_mul_left c hs
      _ < 2 ^ 54 * 1024 := Nat.mul_lt_mul_of_pos_right hc (by decide)
      _ = 2 ^ 64 := by norm_num
  refine ⟨hprod, ?_, ?_⟩
  · unfold cycles_to_nsec
    rw [Nat.mod_eq_of_lt hprod, shiftRight_ten]
  · intro f hf h32
    refine ⟨_, scale_of_nonzero f (by omega) h32, ?_⟩
    calc 1024000000 / f ≤ 1024000000 / 1000000 := Nat.div_le_div_left hf (by decide)
      _ = 1024 := by norm_num

/-- C3, instance: `2^54 - 1` cycles at scale 1024. -/
theorem cycles_to_nsec_no_wrap_witness :
    cycles_to_nsec (2 ^ 54 - 1) 1024 = (2 ^ 54 - 1) * 1024 / 1024 :=
  (cycles_to_nsec_no_wrap (2 ^ 54 - 1) 1024 (by decide) (by decide)).2.1

/-- C4, as stated, fails: 2,600,000 cycles at the scale factor of 2,600,000 kHz
do not convert to 998,437 ns. -/
theorem example_conversion_not_998437 :
    (get_cycles_to_nsec_scale 2600000).map (cycles_to_nsec 2600000) ≠ some 998437 := by
  decide

/-- C4, amended: 2,600,000 cycles at the scale factor of 2,600,000 kHz (393)
convert to `(2600000 * 393) >> 10`, which is 997,851 ns. -/
theorem example_conversion_997851 :
    (get_cycles_to_nsec_scale 2600000).map (cycles_to_nsec 2600000) = some 997851 ∧
    cycles_to_nsec 2600000 393 = (2600000 * 393) >>> 10 ∧
    (2600000 * 393) >>> 10 = 997851 := by
  decide

/-- C5, as stated, fails: at 2,600,000 kHz one second of cycles converts to
997,851,562 ns, which is 2,148,438 ns (more than 1024 ns) away from
1,000,000,000 ns. -/
theorem round_trip_off_by_more_than_1024 :
    800000 ≤ 2600000 ∧ 2600000 ≤ 5000000 ∧
    get_cycles_to_nsec_scale 2600000 = some 393 ∧
    cycles_to_nsec (1000 * 2600000) 393 = 997851562 ∧
    ¬ ((cycles_to_nsec (1000 * 2600000) 393 : Int) - 1000000000).natAbs ≤ 1024 := by
  decide

/-- C5, amended: for every frequency `F` in 800,000..5,000,000 kHz one second of
cycles (`1000 * F`) converts, with the scale factor of `F`, to a value that
does not exceed 1,000,000,000 ns and falls short of it by exactly
`ceil (1000 * (1024000000 mod F) / 1024)` ns, which is less than `F` ns. -/
theorem round_trip_error (F : Nat) (hlo : 800000 ≤ F) (hhi : F ≤ 5000000) :
    ∃ s, get_cycles_to_nsec_scale F = some s ∧
      cycles_to_nsec (1000 * F) s ≤ 1000000000 ∧
      1000000000 - cycles_to_nsec (1000 * F) s = (1000 * (1024000000 % F) + 1023) / 1024 ∧
      1000000000 - cycles_to_nsec (1000 * F) s < F := by
  refine ⟨_, scale_of_nonzero F (by omega) (by omega), ?_⟩
  have hdiv : F * (1024000000 / F) + 1024000000 % F = 1024000000 := Nat.div_add_mod _ _
  have hmod : 1024000000 % F < F := Nat.mod_lt _ (by omega)
  have hmul : 1000 * F * (1024000000 / F) = 1000 * (F * (1024000000 / F)) := Nat.mul_assoc _ _ _
  unfold cycles_to_nsec
  rw [hmul, shiftRight_ten]
  generalize F * (1024000000 / F) = p at hdiv ⊢
  generalize 1024000000 % F = r at hdiv hmod ⊢
  have hp : 1000 * p % 2 ^ 64 = 1000 * p := Nat.mod_eq_of_lt (by omega)
  rw [hp]
  omega

/-- C5, amended, instance: at 2.6 GHz. -/
theorem round_trip_error_witness :
    ∃ s, get_cycles_to_nsec_scale 2600000 = some s ∧
      cycles_to_nsec (1000 * 2600000) s ≤ 1000000000 ∧
      1000000000 - cycles_to_nsec (1000 * 2600000) s
        = (1000 * (1024000000 % 2600000) + 1023) / 1024 ∧
      1000000000 - cycles_to_nsec (1000 * 2600000) s < 2600000 :=
  round_trip_error 2600000 (by decide) (by decide)

/-- C6: `get_cycles_to_nsec_scale` is non-increasing in the frequency: for
`f1 ≤ f2` in 800,000..5,000,000 kHz both scale factors exist and the one of
`f2` is at most the one of `f1`. -/
theorem get_cycles_to_nsec_scale_antitone (f1 f2 : Nat)
    (hlo : 800000 ≤ f1) (hle : f1 ≤ f2) (hhi : f2 ≤ 5000000) :
    ∃ s1 s2, get_cycles_to_nsec_scale f1 = some s1 ∧
      get_cycles_to_nsec_scale f2 = some s2 ∧ s2 ≤ s1 :=
  ⟨_, _, scale_of_nonzero f1 (by omega) (by omega), scale_of_nonzero f2 (by omega) (by omega),
    Nat.div_le_div_left hle (by omega)⟩

/-- C6, instance: 2.6 GHz against 3.4 GHz. -/
theorem get_cycles_to_nsec_scale_antitone_witness :
    ∃ s1 s2, get_cycles_to_nsec_scale 2600000 = some s1 ∧
      get_cycles_to_nsec_scale 3400000 = some s2 ∧ s2 ≤ s1 :=
  get_cycles_to_nsec_scale_antitone 2600000 3400000 (by decide) (by decide) (by decide)

/-- C7, as stated, fails: with `c = 2^53` and `s = 1024` (both arguments and
`2 * c` fit their types) the product for `2 * c` wraps to zero, and
`cycles_to_nsec (2 * c) s = 0` is neither `2 * cycles_to_nsec c s = 2^54` nor
that plus one. -/
theorem doubling_wraps_at_two_pow_53 :
    2 * 2 ^ 53 < 2 ^ 64 ∧ 1024 < 2 ^ 32 ∧
    cycles_to_nsec (2 * 2 ^ 53) 1024 = 0 ∧
    cycles_to_nsec (2 ^ 53) 1024 = 2 ^ 53 ∧
    ¬ (cycles_to_nsec (2 * 2 ^ 53) 1024 = 2 * cycles_to_nsec (2 ^ 53) 1024 ∨
       cycles_to_nsec (2 * 2 ^ 53) 1024 = 2 * cycles_to_nsec (2 ^ 53) 1024 + 1) := by
  decide

/-- C7, amended: whenever the product `2 * c * s` fits in 64 bits,
`cycles_to_nsec (2 * c) s` is `2 * cycles_to_nsec c s` or that plus one. -/
theorem cycles_to_nsec_doubling (c s : Nat) (h : 2 * c * s < 2 ^ 64) :
    cycles_to_nsec (2 * c) s = 2 * cycles_to_nsec c s ∨
    cycles_to_nsec (2 * c) s = 2 * cycles_to_nsec c s + 1 := by
  have hassoc : 2 * c * s = 2 * (c * s) := Nat.mul_assoc _ _ _
  unfold cycles_to_nsec
  rw [shiftRight_ten, shiftRight_ten, hassoc]
  rw [hassoc] at h
  generalize c * s = x at h ⊢
  have h1 : 2 * x % 2 ^ 64 = 2 * x := Nat.mod_eq_of_lt h
  have h2 : x % 2 ^ 64 = x := Nat.mod_eq_of_lt (by omega)
  rw [h1, h2]
  omega

/-- C7, amended, instance: an odd low bit appears for `c = 3`, `s = 512`. -/
theorem cycles_to_nsec_doubling_witness :
    cycles_to_nsec (2 * 3) 512 = 2 * cycles_to_nsec 3 512 ∨
    cycles_to_nsec (2 * 3) 512 = 2 * cycles_to_nsec 3 512 + 1 :=
  cycles_to_nsec_doubling 3 512 (by decide)

/-! ## Frequency resolver -/

/-- C8: when the decoded key classifies as `TOO_OLD`, `get_tsc_freq_khz`
returns the failure value `(uint32_t)-1 = 0xFFFFFFFF` and its only action is
the message on `stderr`: no call on the register device is made (every run of
`read_msr` starts with an `open`, and none occurs), and the outcome is the same
for every device, every initial content of the local and every cpu index. -/
theorem get_tsc_freq_khz_unsupported (raw : Nat) (dev : MsrDevice) (g : Nat) (cpu : Int)
    (h : get_processor_type (get_intel_family_model raw) = TOO_OLD) :
    (get_tsc_freq_khz raw dev g cpu).ret = some 0xFFFFFFFF ∧
    to_uint32 (-1) = 0xFFFFFFFF ∧
    (get_tsc_freq_khz raw dev g cpu).trace =
      [Event.fprintf_stderr "processor too new, too old, or not detected\n"] ∧
    (∀ e ∈ (get_tsc_freq_khz raw dev g cpu).trace, is_device_call e = false) ∧
    (∀ c, Event.sys_open c ∉ (get_tsc_freq_khz raw dev g cpu).trace) ∧
    (∀ dev1 g1 cpu1 idx,
      (read_msr dev1 cpu1 idx g1).trace.head? = some (Event.sys_open cpu1)) ∧
    (∀ dev1 g1 cpu1, get_tsc_freq_khz raw dev1 g1 cpu1 = get_tsc_freq_khz raw dev g cpu) := by
  have hrun := freq_unsupported raw dev g cpu h
  refine ⟨by rw [hrun], by decide, by rw [hrun], ?_, ?_, ?_, ?_⟩
  · intro e he
    rw [hrun] at he
    simp only [List.mem_singleton] at he
    subst he
    rfl
  · intro c hc
    rw [hrun] at hc
    simp at hc
  · intro dev1 g1 cpu1 idx
    exact read_msr_trace_head dev1 cpu1 idx g1
  · intro dev1 g1 cpu1
    rw [hrun, freq_unsupported raw dev1 g1 cpu1 h]

/-- C8, instance: the raw value 0 (family 0) on a device that would answer. -/
theorem get_tsc_freq_khz_unsupported_witness :
    get_processor_type (get_intel_family_model 0) = TOO_OLD ∧
    (get_tsc_freq_khz 0 (constant_device 0x1a00) 0 0).ret = some 0xFFFFFFFF :=
  ⟨by decide, (get_tsc_freq_khz_unsupported 0 (constant_device 0x1a00) 0 0 (by decide)).1⟩

/-- C9: for a supported processor type `t` and a value `v` read successfully
from register `0xce`, `get_tsc_freq_khz` returns
`((v >> 8) & 0xff) * tsc_processor_types[t].base_clock_khz`; the ratio is an
8-bit value, the only device calls are those of `read_msr` on register `0xce`,
and any other successful run on the same processor whose value has the same
bits 8..15 returns the same frequency. -/
theorem get_tsc_freq_khz_resolved (raw : Nat) (dev : MsrDevice) (g : Nat) (cpu : Int)
    (t v : Nat)
    (ht : get_processor_type (get_intel_family_model raw) = t) (hsup : t ≠ TOO_OLD)
    (hret : (read_msr dev cpu 0xce g).ret = 0) (hv : (read_msr dev cpu 0xce g).val = v) :
    (∃ entry, tsc_processor_types[t]? = some entry ∧
      (get_tsc_freq_khz raw dev g cpu).ret =
        some (((v >>> 8) &&& 0xff) * entry.base_clock_khz)) ∧
    (v >>> 8) &&& 0xff < 2 ^ 8 ∧
    (get_tsc_freq_khz raw dev g cpu).trace = (read_msr dev cpu 0xce g).trace ∧
    (∀ dev1 g1 cpu1, (read_msr dev1 cpu1 0xce g1).ret = 0 →
      ((read_msr dev1 cpu1 0xce g1).val >>> 8) &&& 0xff = (v >>> 8) &&& 0xff →
      (get_tsc_freq_khz raw dev1 g1 cpu1).ret = (get_tsc_freq_khz raw dev g cpu).ret) := by
  subst ht
  have hne : (read_msr dev cpu 0xce g).ret ≠ -1 := by rw [hret]; decide
  obtain ⟨entry, hentry, -, hrun⟩ := freq_resolved raw dev g cpu hsup hne
  rw [hv] at hrun
  refine ⟨⟨entry, hentry, by rw [hrun]⟩, ?_, by rw [hrun], ?_⟩
  · exact Nat.lt_succ_of_le Nat.and_le_right
  · intro dev1 g1 cpu1 hret1 hbits
    have hne1 : (read_msr dev1 cpu1 0xce g1).ret ≠ -1 := by rw [hret1]; decide
    obtain ⟨entry1, hentry1, -, hrun1⟩ := freq_resolved raw dev1 g1 cpu1 hsup hne1
    have hsame : entry1 = entry := Option.some.inj (hentry1.symm.trans hentry)
    rw [hrun1, hrun, hbits, hsame]

/-- C9, instance: a Haswell (`cpuid` value `0x306C3`, key `0x6003c`) whose
platform-info register holds ratio 26 in bits 8..15 and ones in every other
bit resolves to 2,600,000 kHz. -/
theorem get_tsc_freq_khz_resolved_witness :
    get_intel_family_model 0x306C3 = 0x6003c ∧
    (read_msr (constant_device 0xFFFFFFFFFFFF1AFF) 0 0xce 0).val = 0xFFFFFFFFFFFF1AFF ∧
    (get_tsc_freq_khz 0x306C3 (constant_device 0xFFFFFFFFFFFF1AFF) 0 0).ret = some 2600000 :=
  ⟨by decide, by decide,
    by
      obtain ⟨⟨entry, hentry, hrun⟩, -⟩ :=
        get_tsc_freq_khz_resolved 0x306C3 (constant_device 0xFFFFFFFFFFFF1AFF) 0 0
          HASWELL 0xFFFFFFFFFFFF1AFF (by decide) (by decide) (by decide) (by decide)
      have he : entry = ⟨"Haswell", 100000⟩ := (Option.some.inj hentry).symm
      rw [hrun, he]
      decide⟩

/-- C10: `get_tsc_freq_khz` returns `0xFFFFFFFF` exactly when the processor
classifies as `TOO_OLD` or `read_msr` on register `0xce` returns `-1`; in every
other run it returns the untruncated product of the 8-bit ratio and the base
clock, which is at most `255 * 133330 = 33999150` and so below `0xFFFFFFFF`. -/
theorem get_tsc_freq_khz_failure_iff (raw : Nat) (dev : MsrDevice) (g : Nat) (cpu : Int) :
    ((get_tsc_freq_khz raw dev g cpu).ret = some 0xFFFFFFFF ↔
      (get_processor_type (get_intel_family_model raw) = TOO_OLD ∨
        (read_msr dev cpu 0xce g).ret = -1)) ∧
    (¬ (get_processor_type (get_intel_family_model raw) = TOO_OLD ∨
        (read_msr dev cpu 0xce g).ret = -1) →
      ∃ entry freq,
        tsc_processor_types[get_processor_type (get_intel_family_model raw)]? = some entry ∧
        (get_tsc_freq_khz raw dev g cpu).ret = some freq ∧
        freq = (((read_msr dev cpu 0xce g).val >>> 8) &&& 0xff) * entry.base_clock_khz ∧
        freq ≤ 33999150) ∧
    255 * 133330 = 33999150 ∧ 33999150 < 2 ^ 32 - 1 := by
  have hsucc : ¬ (get_processor_type (get_intel_family_model raw) = TOO_OLD ∨
        (read_msr dev cpu 0xce g).ret = -1) →
      ∃ entry freq,
        tsc_processor_types[get_processor_type (get_intel_family_model raw)]? = some entry ∧
        (get_tsc_freq_khz raw dev g cpu).ret = some freq ∧
        freq = (((read_msr dev cpu 0xce g).val >>> 8) &&& 0xff) * entry.base_clock_khz ∧
        freq ≤ 33999150 := by
    intro hno
    obtain ⟨hsup, hne⟩ := not_or.mp hno
    obtain ⟨entry, hentry, hbase, hrun⟩ := freq_resolved raw dev g cpu hsup hne
    refine ⟨entry, _, hentry, by rw [hrun], rfl, ?_⟩
    have hr : ((read_msr dev cpu 0xce g).val >>> 8) &&& 0xff ≤ 255 := Nat.and_le_right
    calc (((read_msr dev cpu 0xce g).val >>> 8) &&& 0xff) * entry.base_clock_khz
        ≤ 255 * 133330 := Nat.mul_le_mul hr hbase
      _ = 33999150 := by norm_num
  refine ⟨⟨?_, ?_⟩, hsucc, by norm_num, by norm_num⟩
  · intro hfail
    by_contra hno
    obtain ⟨entry, freq, -, hfreq, -, hle⟩ := hsucc hno
    rw [hfreq] at hfail
    have := Option.some.inj hfail
    omega
  · rintro (hold | hread)
    · rw [freq_unsupported raw dev g cpu hold]
    · by_cases hsup : get_processor_type (get_intel_family_model raw) = TOO_OLD
      · rw [freq_unsupported raw dev g cpu hsup]
      · rw [freq_unreadable raw dev g cpu hsup hread]

/-- C10, instance: a Westmere (`cpuid` value `0x206C2`, key `0x6002c`) at the
largest ratio, 255, is resolved and not reported as a failure. -/
theorem get_tsc_freq_khz_failure_iff_witness :
    (get_tsc_freq_khz 0x206C2 (constant_device 0xFF00) 0 0).ret ≠ some 0xFFFFFFFF :=
  fun hfail =>
    absurd ((get_tsc_freq_khz_failure_iff 0x206C2 (constant_device 0xFF00) 0 0).1.mp hfail)
      (by decide)

/-! ## Family/model decoding -/

/-- C11: the key is `(family << 16) | model` for the two decoded fields, with
no wrap in 32 bits; `model ≤ 0xFF` and `family ≤ 0xFFF`; two raw values have
the same key exactly when they agree on bits 4..11 and 16..27 (equivalently
under the mask `0x0FFF0FF0`), so bits 0..3, 12..15 and 28 upwards never
influence the key; and `0x000306A9` decodes to `0x6003a`. -/
theorem get_intel_family_model_spec (r1 r2 : Nat) :
    get_intel_family_model r1 = (decoded_family r1 <<< 16) ||| decoded_model r1 ∧
    decoded_model r1 = ((r1 &&& 0xFF) >>> 4) ||| ((r1 &&& 0xF0000) >>> 12) ∧
    decoded_family r1 = ((r1 &&& 0xF00) >>> 8) ||| ((r1 &&& 0xFF00000) >>> 16) ∧
    decoded_model r1 ≤ 0xFF ∧ decoded_family r1 ≤ 0xFFF ∧
    (get_intel_family_model r1 = get_intel_family_model r2 ↔
      ∀ i, (4 ≤ i ∧ i ≤ 11) ∨ (16 ≤ i ∧ i ≤ 27) → r1.testBit i = r2.testBit i) ∧
    (get_intel_family_model r1 = get_intel_family_model r2 ↔
      r1 &&& 0x0FFF0FF0 = r2 &&& 0x0FFF0FF0) ∧
    get_intel_family_model (r1 &&& 0x0FFF0FF0) = get_intel_family_model r1 ∧
    get_intel_family_model 0x000306A9 = 0x6003a := by
  refine ⟨(key_eq_sum r1).1, rfl, rfl, decoded_model_le r1, decoded_family_le r1,
    key_eq_iff_bits r1 r2, (key_eq_iff_bits r1 r2).trans (mask_eq_iff_bits r1 r2).symm, ?_,
    by decide⟩
  apply (key_eq_iff_bits _ _).mpr
  apply (mask_eq_iff_bits _ _).mp
  rw [Nat.and_assoc, Nat.and_self]

/-- C11, instance: `0x000306A9` and `0xF003F6A6`, which differ in bits 0..3,
12..15 and 28..31 only, decode to the same key. -/
theorem get_intel_family_model_spec_witness :
    get_intel_family_model 0x000306A9 = get_intel_family_model 0xF003F6A6 :=
  (get_intel_family_model_spec 0x000306A9 0xF003F6A6).2.2.2.2.2.2.1.mpr (by decide)

/-! ## Timestamp reader -/

/-- C12: with `PARANOID_TSC` defined, `rdtscp` returns `(hi << 32) | lo` (which
is `hi * 2^32 + lo` and fits in 64 bits) when the low 12 bits of the auxiliary
value equal `expected_cpu`, and `(uint64_t)-1 = 0xFFFFFFFFFFFFFFFF` otherwise;
two auxiliary values with the same low 12 bits give the same result. -/
theorem rdtscp_paranoid (lo hi aux expected_cpu : Nat) (hlo : lo < 2 ^ 32) (hhi : hi < 2 ^ 32) :
    PARANOID_TSC = true ∧
    (aux &&& 0xfff = expected_cpu →
      rdtscp PARANOID_TSC lo hi aux expected_cpu = (hi <<< 32) ||| lo) ∧
    (aux &&& 0xfff ≠ expected_cpu →
      rdtscp PARANOID_TSC lo hi aux expected_cpu = 0xFFFFFFFFFFFFFFFF) ∧
    to_uint64 (-1) = 0xFFFFFFFFFFFFFFFF ∧
    (hi <<< 32) ||| lo = hi * 2 ^ 32 + lo ∧ (hi <<< 32) ||| lo < 2 ^ 64 ∧
    aux &&& 0xfff = aux % 2 ^ 12 ∧
    (∀ aux1, aux1 &&& 0xfff = aux &&& 0xfff →
      rdtscp PARANOID_TSC lo hi aux1 expected_cpu =
        rdtscp PARANOID_TSC lo hi aux expected_cpu) := by
  have hshift : hi <<< 32 = 2 ^ 32 * hi := by rw [Nat.shiftLeft_eq, Nat.mul_comm]
  have hsum : (hi <<< 32) ||| lo = hi * 2 ^ 32 + lo := by
    rw [hshift, ← Nat.mul_add_lt_is_or hlo, Nat.mul_comm]
  have hmod1 : hi % 2 ^ 64 = hi := Nat.mod_eq_of_lt (by omega)
  have hmod2 : (hi <<< 32) % 2 ^ 64 = hi <<< 32 := Nat.mod_eq_of_lt (by rw [hshift]; omega)
  refine ⟨rfl, ?_, ?_, by decide, hsum, by rw [hsum]; omega,
    Nat.and_pow_two_sub_one_eq_mod aux 12, ?_⟩
  · intro h
    simp only [rdtscp, PARANOID_TSC, if_true, h, ne_eq, not_true_eq_false, if_false, hmod1, hmod2]
  · intro h
    simp only [rdtscp, PARANOID_TSC, if_true, ne_eq, h, not_false_eq_true]
    decide
  · intro aux1 h
    simp only [rdtscp, h]

/-- C12, instance: cpu 5 on socket 1 (`aux = 0x1005`) matches the expected cpu 5. -/
theorem rdtscp_paranoid_witness :
    rdtscp PARANOID_TSC 0x89ABCDEF 0x01234567 0x1005 5 = (0x01234567 <<< 32) ||| 0x89ABCDEF :=
  (rdtscp_paranoid 0x89ABCDEF 0x01234567 0x1005 5 (by decide) (by decide)).2.1 (by decide)

/-- C18: with `PARANOID_TSC` defined, `rdtscp` returns `0xFFFFFFFFFFFFFFFF` for
every `expected_cpu` of 4096 or more, whatever the instruction delivers: the
core id `aux & 0xfff` is below 4096. -/
theorem rdtscp_large_expected_cpu (lo hi aux expected_cpu : Nat) (hcpu : 4096 ≤ expected_cpu) :
    aux &&& 0xfff < 4096 ∧
    rdtscp PARANOID_TSC lo hi aux expected_cpu = 0xFFFFFFFFFFFFFFFF := by
  have hcore : aux &&& 0xfff ≤ 0xfff := Nat.and_le_right
  have hne : aux &&& 0xfff ≠ expected_cpu := by omega
  refine ⟨by omega, ?_⟩
  simp only [rdtscp, PARANOID_TSC, if_true, ne_eq, hne, not_false_eq_true]
  decide

/-- C18, instance: expected cpu 4096 against an auxiliary value of 4096, whose
low 12 bits are zero. -/
theorem rdtscp_large_expected_cpu_witness :
    rdtscp PARANOID_TSC 1 0 4096 4096 = 0xFFFFFFFFFFFFFFFF :=
  (rdtscp_large_expected_cpu 1 0 4096 4096 (by decide)).2

/-! ## Register reader -/

/-- C13: `read_msr` returns `-1` when the `open` fails (leaving `*val`
unchanged, with no further call), when the `lseek` fails, when the `read` fails
or when it delivers fewer than the eight bytes asked for; otherwise it returns
`0` and `*val` holds the eight bytes read: byte `i` of `*val` is the `i`-th
byte delivered, so that for delivered bytes `b0 .. b7` the value is
`b0 + b1 * 2^8 + ... + b7 * 2^56`.  It returns nothing but `0` or `-1`, and
closes the descriptor whenever the `open` succeeded. -/
theorem read_msr_spec (dev : MsrDevice) (cpu : Int) (idx val : Nat) :
    (dev.open_result cpu < 0 →
      (read_msr dev cpu idx val).ret = -1 ∧ (read_msr dev cpu idx val).val = val ∧
      (read_msr dev cpu idx val).trace = [Event.sys_open cpu]) ∧
    (0 ≤ dev.open_result cpu → dev.lseek_result (dev.open_result cpu) idx = -1 →
      (read_msr dev cpu idx val).ret = -1) ∧
    (0 ≤ dev.open_result cpu → dev.lseek_result (dev.open_result cpu) idx ≠ -1 →
      dev.read_result (dev.open_result cpu) (dev.lseek_result (dev.open_result cpu) idx) = none →
      (read_msr dev cpu idx val).ret = -1) ∧
    (0 ≤ dev.open_result cpu → dev.lseek_result (dev.open_result cpu) idx ≠ -1 →
      ∀ available,
        dev.read_result (dev.open_result cpu) (dev.lseek_result (dev.open_result cpu) idx)
          = some available →
        ((available.take 8).length ≠ 8 → (read_msr dev cpu idx val).ret = -1) ∧
        ((available.take 8).length = 8 →
          (read_msr dev cpu idx val).ret = 0 ∧
          (read_msr dev cpu idx val).val = le_value (available.take 8) ∧
          (read_msr dev cpu idx val).val < 2 ^ 64 ∧
          (∀ i b, i < 8 → available[i]? = some b →
            (read_msr dev cpu idx val).val / 256 ^ i % 256 = b % 256) ∧
          (∀ b0 b1 b2 b3 b4 b5 b6 b7 rest,
            available = b0 :: b1 :: b2 :: b3 :: b4 :: b5 :: b6 :: b7 :: rest →
            (read_msr dev cpu idx val).val =
              b0 % 256 + (b1 % 256) * 2 ^ 8 + (b2 % 256) * 2 ^ 16 + (b3 % 256) * 2 ^ 24 +
              (b4 % 256) * 2 ^ 32 + (b5 % 256) * 2 ^ 40 + (b6 % 256) * 2 ^ 48 +
              (b7 % 256) * 2 ^ 56))) ∧
    ((read_msr dev cpu idx val).ret = 0 ∨ (read_msr dev cpu idx val).ret = -1) ∧
    (0 ≤ dev.open_result cpu →
      (read_msr dev cpu idx val).trace.getLast? = some (Event.sys_close (dev.open_result cpu))) := by
  refine ⟨?_, ?_, ?_, ?_, read_msr_ret dev cpu idx val, ?_⟩
  · intro hopen
    simp only [read_msr, hopen, if_true, and_self]
  · intro hopen hseek
    simp only [read_msr, not_lt.mpr hopen, if_false, hseek, if_true]
  · intro hopen hseek hread
    simp only [read_msr, not_lt.mpr hopen, if_false, hseek, hread]
  · intro hopen hseek available hread
    constructor
    · intro hlen
      have hcast : ((available.take 8).length : Int) ≠ 8 := by exact_mod_cast hlen
      simp only [read_msr, not_lt.mpr hopen, if_false, hseek, hread, ne_eq, hcast,
        not_false_eq_true, if_true]
    · intro hlen
      have hcast : ¬ ((available.take 8).length : Int) ≠ 8 := by
        rw [hlen]; decide
      have hval := store_eight_bytes val (available.take 8) hlen
      have hlt := le_value_lt (available.take 8)
      rw [hlen] at hlt
      have hrun : (read_msr dev cpu idx val).ret = 0 ∧
          (read_msr dev cpu idx val).val = le_value (available.take 8) := by
        simp only [read_msr, not_lt.mpr hopen, if_false, hseek, hread, hcast, hval, and_self]
      refine ⟨hrun.1, hrun.2, ?_, ?_, ?_⟩
      · rw [hrun.2]
        calc le_value (available.take 8) < 256 ^ 8 := hlt
          _ = 2 ^ 64 := by norm_num
      · intro i b hi hb
        rw [hrun.2]
        apply le_value_byte
        rw [List.getElem?_take_of_lt hi]
        exact hb
      · intro b0 b1 b2 b3 b4 b5 b6 b7 rest hav
        rw [hrun.2, hav]
        show le_value [b0, b1, b2, b3, b4, b5, b6, b7] = _
        simp only [le_value]
        omega
  · intro hopen
    unfold read_msr
    simp only [not_lt.mpr hopen, if_false]
    split_ifs
    · rfl
    · split
      · rfl
      · split_ifs <;> rfl

/-- C13, instance: on a device that cannot be opened `read_msr` returns `-1`
and leaves the value 77 in place; a read of three bytes is a failure; a read
of eight bytes `00 1a 00 00 00 00 00 00` out of ten available succeeds and
replaces the value 77 by `0x1a00`, whose byte 1 is `0x1a`. -/
theorem read_msr_spec_witness :
    ((read_msr closed_device 4096 0xce 77).ret = -1 ∧
      (read_msr closed_device 4096 0xce 77).val = 77 ∧
      (read_msr closed_device 4096 0xce 77).trace = [Event.sys_open 4096]) ∧
    (read_msr (bytes_device [1, 2, 3]) 0 0xce 77).ret = -1 ∧
    (read_msr (bytes_device [0, 0x1a, 0, 0, 0, 0, 0, 0, 9, 9]) 0 0xce 77).ret = 0 ∧
    (read_msr (bytes_device [0, 0x1a, 0, 0, 0, 0, 0, 0, 9, 9]) 0 0xce 77).val = 0x1a00 ∧
    (read_msr (bytes_device [0, 0x1a, 0, 0, 0, 0, 0, 0, 9, 9]) 0 0xce 77).val / 256 ^ 1 % 256
      = 0x1a ∧
    (read_msr (bytes_device [0x88, 0x77, 0x66, 0x55, 0x44, 0x33, 0x22, 0x11]) 0 0xce 0).val
      = 0x1122334455667788 :=
  ⟨(read_msr_spec closed_device 4096 0xce 77).1 (by decide),
    ((read_msr_spec (bytes_device [1, 2, 3]) 0 0xce 77).2.2.2.1 (by decide) (by decide)
      [1, 2, 3] rfl).1 (by decide),
    (((read_msr_spec (bytes_device [0, 0x1a, 0, 0, 0, 0, 0, 0, 9, 9]) 0 0xce 77).2.2.2.1
      (by decide) (by decide) [0, 0x1a, 0, 0, 0, 0, 0, 0, 9, 9] rfl).2 (by decide)).1,
    ((((read_msr_spec (bytes_device [0, 0x1a, 0, 0, 0, 0, 0, 0, 9, 9]) 0 0xce 77).2.2.2.1
      (by decide) (by decide) [0, 0x1a, 0, 0, 0, 0, 0, 0, 9, 9] rfl).2
        (by decide)).2.1).trans (by decide),
    ((((read_msr_spec (bytes_device [0, 0x1a, 0, 0, 0, 0, 0, 0, 9, 9]) 0 0xce 77).2.2.2.1
      (by decide) (by decide) [0, 0x1a, 0, 0, 0, 0, 0, 0, 9, 9] rfl).2
        (by decide)).2.2.2.1 1 0x1a (by decide) rfl).trans (by decide),
    ((((read_msr_spec (bytes_device [0x88, 0x77, 0x66, 0x55, 0x44, 0x33, 0x22, 0x11]) 0 0xce
      0).2.2.2.1 (by decide) (by decide) [0x88, 0x77, 0x66, 0x55, 0x44, 0x33, 0x22, 0x11] rfl).2
        (by decide)).2.2.2.2 0x88 0x77 0x66 0x55 0x44 0x33 0x22 0x11 [] rfl).trans (by decide)⟩

/-! ## Table and enumeration in lockstep -/

/-- C14: for every key `k` the table entry at index `get_processor_type k`
exists and carries the name of the enumerator returned (the identifier of that
enumerator matches this entry's name and the name of no other entry); its base
clock is 133,330 kHz exactly when `k` is one of the seven Nehalem/Westmere
keys, and 100,000 kHz for every other key. -/
theorem table_lockstep (k : Nat) :
    ∃ entry enumerator,
      tsc_processor_types[get_processor_type k]? = some entry ∧
      enumerator_names[get_processor_type k]? = some enumerator ∧
      names_agree enumerator entry.name = true ∧
      (∀ j other, tsc_processor_types[j]? = some other →
        names_agree enumerator other.name = true → j = get_processor_type k) ∧
      (entry.base_clock_khz = 133330 ↔ k ∈ nehalem_westmere_keys) ∧
      (k ∉ nehalem_westmere_keys → entry.base_clock_khz = 100000) := by
  unfold get_processor_type
  split
  all_goals
    refine ⟨_, _, rfl, rfl, by decide,
      fun j other hj h => names_agree_unique _ j (by decide) other hj h, ?_, ?_⟩
  all_goals first | decide | simp_all [nehalem_westmere_keys, tsc_processor_types]

/-- C14, instance: the Westmere key `0x6002c` has a 133,330 kHz entry and the
Haswell key `0x6003c` a 100,000 kHz entry. -/
theorem table_lockstep_witness :
    (∃ entry, tsc_processor_types[get_processor_type 0x6003c]? = some entry ∧
      entry.name = "Haswell" ∧ entry.base_clock_khz = 100000) ∧
    (∃ entry, tsc_processor_types[get_processor_type 0x6002c]? = some entry ∧
      entry.name = "Westmere" ∧ entry.base_clock_khz = 133330) := by
  constructor
  · obtain ⟨entry, -, hentry, -, -, -, -, hclock⟩ := table_lockstep 0x6003c
    have he : entry = ⟨"Haswell", 100000⟩ := (Option.some.inj hentry).symm
    exact ⟨entry, hentry, by rw [he], hclock (by decide)⟩
  · obtain ⟨entry, -, hentry, -, -, -, hiff, -⟩ := table_lockstep 0x6002c
    have he : entry = ⟨"Westmere", 133330⟩ := (Option.some.inj hentry).symm
    exact ⟨entry, hentry, by rw [he], hiff.mpr (by decide)⟩

/-- C15: a key whose family field `k >> 16` is not 6 classifies as `TOO_OLD`;
a key that classifies as supported has family 6 and a model `k & 0xffff` in
`0x1a..0x5e`; and for a raw value whose decoded family (the family field of its
key) is not 6, `get_tsc_freq_khz` fails as unsupported, with the failure value
and no call on the register device. -/
theorem only_family_six (k raw : Nat) (dev : MsrDevice) (g : Nat) (cpu : Int) :
    (k >>> 16 ≠ 6 → get_processor_type k = TOO_OLD) ∧
    (get_processor_type k ≠ TOO_OLD →
      k >>> 16 = 6 ∧ 0x1a ≤ k &&& 0xffff ∧ k &&& 0xffff ≤ 0x5e) ∧
    get_intel_family_model raw >>> 16 = decoded_family raw ∧
    (decoded_family raw ≠ 6 →
      get_processor_type (get_intel_family_model raw) = TOO_OLD ∧
      get_tsc_freq_khz raw dev g cpu =
        ⟨some 0xFFFFFFFF,
          [Event.fprintf_stderr "processor too new, too old, or not detected\n"]⟩) := by
  have hfam : ∀ n, n >>> 16 ≠ 6 → get_processor_type n = TOO_OLD := by
    intro n hn
    unfold get_processor_type
    split <;> simp_all
  refine ⟨hfam k, ?_, key_family raw, ?_⟩
  · unfold get_processor_type
    split
    all_goals first | decide | simp
  · intro hraw
    have hold : get_processor_type (get_intel_family_model raw) = TOO_OLD :=
      hfam _ (by rw [key_family]; exact hraw)
    exact ⟨hold, freq_unsupported raw dev g cpu hold⟩

/-- C15, instance: the NetBurst value `0x00000F4A` (family 15) is refused
without a read, on a device that would answer. -/
theorem only_family_six_witness :
    decoded_family 0x00000F4A = 15 ∧
    get_tsc_freq_khz 0x00000F4A (constant_device 0x1a00) 0 0 =
      ⟨some 0xFFFFFFFF,
        [Event.fprintf_stderr "processor too new, too old, or not detected\n"]⟩ :=
  ⟨by decide,
    ((only_family_six 0 0x00000F4A (constant_device 0x1a00) 0 0).2.2.2 (by decide)).2⟩

/-! ## Conversion against the exact value -/

/-- C16: for every nonzero 32-bit frequency `f` the scale factor `s` exists,
and for every cycle count `c` whose product `c * s` fits in 64 bits
`cycles_to_nsec c s` is at most `c * 1000000 / f`, the whole nanoseconds in `c`
cycles at `f` kHz. -/
theorem conversion_never_overestimates (f c : Nat) (hf0 : f ≠ 0) (hf32 : f < 2 ^ 32) :
    ∃ s, get_cycles_to_nsec_scale f = some s ∧
      (c * s < 2 ^ 64 → cycles_to_nsec c s ≤ c * 1000000 / f) := by
  refine ⟨_, scale_of_nonzero f hf0 hf32, ?_⟩
  intro hprod
  have hfpos : 0 < f := Nat.pos_of_ne_zero hf0
  unfold cycles_to_nsec
  rw [Nat.mod_eq_of_lt hprod, shiftRight_ten, Nat.le_div_iff_mul_le hfpos]
  have h1 : c * (1024000000 / f) / 1024 * 1024 ≤ c * (1024000000 / f) :=
    Nat.div_mul_le_self _ _
  have h2 : 1024000000 / f * f ≤ 1024000000 := Nat.div_mul_le_self _ _
  have h3 : c * (1024000000 / f) / 1024 * f * 1024 ≤ c * 1000000 * 1024 := by
    calc c * (1024000000 / f) / 1024 * f * 1024
        = c * (1024000000 / f) / 1024 * 1024 * f := by ring
      _ ≤ c * (1024000000 / f) * f := Nat.mul_le_mul_right f h1
      _ = c * (1024000000 / f * f) := by ring
      _ ≤ c * 1024000000 := Nat.mul_le_mul_left c h2
      _ = c * 1000000 * 1024 := by ring
  exact Nat.le_of_mul_le_mul_right h3 (by decide)

/-- C16, instance: 2,600,000 cycles at 2.6 GHz convert to 997,851 ns, below
the exact 1,000,000 ns. -/
theorem conversion_never_overestimates_witness :
    ∃ s, get_cycles_to_nsec_scale 2600000 = some s ∧
      (2600000 * s < 2 ^ 64 → cycles_to_nsec 2600000 s ≤ 2600000 * 1000000 / 2600000) :=
  conversion_never_overestimates 2600000 2600000 (by decide) (by decide)

/-! ## A resolved frequency of zero -/

/-- C17: for a supported processor and a successful read of `v`,
`get_tsc_freq_khz` returns 0 exactly when the field in bits 8..15 of `v` is
zero; `get_cycles_to_nsec_scale` is undefined at 0, so in that case the scale
factor of the resolved frequency does not exist. -/
theorem resolved_frequency_zero_iff (raw : Nat) (dev : MsrDevice) (g : Nat) (cpu : Int)
    (v : Nat)
    (hsup : get_processor_type (get_intel_family_model raw) ≠ TOO_OLD)
    (hret : (read_msr dev cpu 0xce g).ret = 0) (hv : (read_msr dev cpu 0xce g).val = v) :
    ((get_tsc_freq_khz raw dev g cpu).ret = some 0 ↔ (v >>> 8) &&& 0xff = 0) ∧
    ((v >>> 8) &&& 0xff = 0 ↔ ∀ i, 8 ≤ i → i ≤ 15 → v.testBit i = false) ∧
    get_cycles_to_nsec_scale 0 = none ∧
    ((v >>> 8) &&& 0xff = 0 →
      (get_tsc_freq_khz raw dev g cpu).ret.bind get_cycles_to_nsec_scale = none) := by
  have hne : (read_msr dev cpu 0xce g).ret ≠ -1 := by rw [hret]; decide
  obtain ⟨entry, hentry, -, hrun⟩ := freq_resolved raw dev g cpu hsup hne
  have hpos := table_base_clock_pos _ entry hentry
  rw [hv] at hrun
  have hiff : (get_tsc_freq_khz raw dev g cpu).ret = some 0 ↔ (v >>> 8) &&& 0xff = 0 := by
    rw [hrun]
    constructor
    · intro h
      have hmul := Option.some.inj h
      rcases Nat.mul_eq_zero.mp hmul with h0 | h0
      · exact h0
      · omega
    · intro h
      show some (((v >>> 8) &&& 0xff) * entry.base_clock_khz) = some 0
      rw [h, Nat.zero_mul]
  refine ⟨hiff, ?_, by decide, ?_⟩
  · constructor
    · intro h i h8 h15
      have hbit : ((v >>> 8) &&& 0xff).testBit (i - 8) = false := by rw [h]; simp
      have hm : Nat.testBit 0xff (i - 8) = true := by
        rw [(lit_testBit (i - 8) (by omega)).1]
        exact decide_eq_true (by omega)
      rw [Nat.testBit_and, Nat.testBit_shiftRight, hm, Bool.and_true,
        show 8 + (i - 8) = i by omega] at hbit
      exact hbit
    · intro h
      apply Nat.eq_of_testBit_eq
      intro j
      rw [Nat.testBit_and, Nat.testBit_shiftRight, Nat.zero_testBit]
      rcases Nat.lt_or_ge j 8 with hj | hj
      · rw [h (8 + j) (by omega) (by omega), Bool.false_and]
      · have hm : Nat.testBit 0xff j = false :=
          Nat.testBit_lt_two_pow
            (lt_of_lt_of_le (by decide : 0xff < 2 ^ 8) (Nat.pow_le_pow_right (by decide) hj))
        rw [hm, Bool.and_false]
  · intro h
    rw [hiff.mpr h]
    decide

/-- C17, instance: a Haswell whose platform-info register has zeros in bits
8..15 (and ones elsewhere) resolves successfully to 0 kHz. -/
theorem resolved_frequency_zero_iff_witness :
    (read_msr (constant_device 0xFFFFFFFFFFFF00FF) 0 0xce 0).ret = 0 ∧
    (get_tsc_freq_khz 0x306C3 (constant_device 0xFFFFFFFFFFFF00FF) 0 0).ret = some 0 :=
  ⟨by decide,
    (resolved_frequency_zero_iff 0x306C3 (constant_device 0xFFFFFFFFFFFF00FF) 0 0
      0xFFFFFFFFFFFF00FF (by decide) (by decide) (by decide)).1.mpr (by decide)⟩

end Tsc
